import Mathlib

/-!
Shallow embedding of the decentraland/ecs-math geometric core.

Numbers are modelled by the real numbers: every arithmetic expression of the
source is translated literally (same operand order, same branch structure),
with JavaScript Math.sqrt, Math.sin, Math.cos, Math.acos rendered as
Real.sqrt, Real.sin, Real.cos, Real.arccos.  Strict equality tests of the
source (x === 0) become real-number equality tests in if-expressions.

JavaScript reference semantics are modelled explicitly: a ToRef-style
function receives the previous value of its output object and returns the
value the caller's object holds afterwards.  An assignment to a local
parameter variable (for example `translation = Vector3.create(0, 0, 0)`
inside Matrix.decompose) rebinds the local name only and never reaches the
caller's object; such lines are translated as comments plus no caller-visible
effect, mirroring the language semantics of the source.

The process-wide counter `_updateFlagSeed` used to stamp matrix versions is
threaded explicitly: every operation that draws a stamp takes the current
seed and returns the updated seed alongside its result.

For one claim about IEEE special values (finiteness of the result of
Quaternion.normalize) the real-number model is refined by FNum, a model of
IEEE binary64 arithmetic restricted to the special-value structure: a finite
value carries an exact real, plus signed infinities and NaN, with the IEEE
rules for how the operations of the source create and propagate them.  FNum
does not model rounding, underflow or overflow of finite values, so theorems
about it are drawn only on inputs where every arithmetic step of the modelled
computation is exact in binary64 (here: components 0 and 1, whose squares,
sums, square roots and quotients involve no rounding); finiteness statements
about general finite inputs are NOT transferable from FNum to the program,
because squaring a tiny component underflows to 0 in binary64.
-/

namespace EcsMath

noncomputable section

/-- Vector3 data: three real components, as in the source type MutableVector3. -/
@[ext]
structure Vector3 where
  x : ℝ
  y : ℝ
  z : ℝ

namespace Vector3

/-- Source Vector3.create(x, y, z): builds the record { x, y, z }. -/
def create (x y z : ℝ) : Vector3 :=
  ⟨x, y, z⟩

/-- Source Vector3.Zero(): create(0.0, 0.0, 0.0). -/
def Zero : Vector3 :=
  create 0.0 0.0 0.0

/-- Source Vector3.length: Math.sqrt(x*x + y*y + z*z). -/
def length (vector : Vector3) : ℝ :=
  Real.sqrt (vector.x * vector.x + vector.y * vector.y + vector.z * vector.z)

/-- Source Vector3.lengthSquared: x*x + y*y + z*z. -/
def lengthSquared (vector : Vector3) : ℝ :=
  vector.x * vector.x + vector.y * vector.y + vector.z * vector.z

/-- Source Vector3.scaleToRef(vector, scale, result): writes vector*scale into
result; the returned value is the caller-visible content of result. -/
def scaleToRef (vector : Vector3) (scale : ℝ) (_result : Vector3) : Vector3 :=
  ⟨vector.x * scale, vector.y * scale, vector.z * scale⟩

/-- Source Vector3.copyFrom(source, dest): writes the components of source
into dest. -/
def copyFrom (source : Vector3) (_dest : Vector3) : Vector3 :=
  ⟨source.x, source.y, source.z⟩

/-- Source Vector3.normalizeFromLengthToRef(vector, len, result): when len is
strictly equal to 0 or to 1.0 it copies the input unchanged, otherwise it
scales by 1.0/len. -/
def normalizeFromLengthToRef (vector : Vector3) (len : ℝ) (result : Vector3) : Vector3 :=
  if len = 0 ∨ len = 1.0 then
    copyFrom vector result
  else
    scaleToRef vector (1.0 / len) result

/-- Source Vector3.normalizeFromLength(vector, len): allocates create(0,0,0)
and delegates to normalizeFromLengthToRef. -/
def normalizeFromLength (vector : Vector3) (len : ℝ) : Vector3 :=
  normalizeFromLengthToRef vector len (create 0 0 0)

/-- Source Vector3.normalize(vector): normalizeFromLength(vector, length(vector)). -/
def normalize (vector : Vector3) : Vector3 :=
  normalizeFromLength vector (length vector)

/-- Source Vector3.normalizeToRef(vector, result): delegates to
normalizeFromLengthToRef with the computed length. -/
def normalizeToRef (vector : Vector3) (result : Vector3) : Vector3 :=
  normalizeFromLengthToRef vector (length vector) result

end Vector3

/-- Quaternion data: four real components, as in the source type
MutableQuaternion. -/
@[ext]
structure Quaternion where
  x : ℝ
  y : ℝ
  z : ℝ
  w : ℝ

namespace Quaternion

/-- Source Quaternion.create(x, y, z, w): builds the record { x, y, z, w }. -/
def create (x y z w : ℝ) : Quaternion :=
  ⟨x, y, z, w⟩

/-- Source Quaternion.Identity(): create(0.0, 0.0, 0.0, 1.0). -/
def Identity : Quaternion :=
  create 0.0 0.0 0.0 1.0

/-- Source Quaternion.lengthSquared: x*x + y*y + z*z + w*w. -/
def lengthSquared (q : Quaternion) : ℝ :=
  q.x * q.x + q.y * q.y + q.z * q.z + q.w * q.w

/-- Source Quaternion.length: Math.sqrt(lengthSquared(q)). -/
def length (q : Quaternion) : ℝ :=
  Real.sqrt (lengthSquared q)

/-- Source Quaternion.dot: left.x*right.x + left.y*right.y + left.z*right.z
+ left.w*right.w. -/
def dot (left right : Quaternion) : ℝ :=
  left.x * right.x + left.y * right.y + left.z * right.z + left.w * right.w

/-- Source Quaternion.normalize (real-number model): qLength = 1.0/length(q),
then create(x*qLength, y*qLength, z*qLength, w*qLength).  The source has no
zero-length guard; the IEEE special-value behaviour at length 0 is modelled
separately with FNum below. -/
def normalize (q : Quaternion) : Quaternion :=
  create (q.x * (1.0 / length q)) (q.y * (1.0 / length q))
    (q.z * (1.0 / length q)) (q.w * (1.0 / length q))

/-- Source Quaternion.slerpToRef(left, right, amount, result).  The local
flag records whether the dot product num4 was negative; num4 is then replaced
by its absolute value.  Above the 0.999999 threshold the coefficients are
linear in amount, otherwise they are the standard sin ratios through
Math.acos/Math.sin.  All four fields of result are overwritten. -/
def slerpToRef (left right : Quaternion) (amount : ℝ) (_result : Quaternion) : Quaternion :=
  let num4a := left.x * right.x + left.y * right.y + left.z * right.z + left.w * right.w
  -- flag = num4a < 0, and then num4 = -num4a
  let num4 := if num4a < 0 then -num4a else num4a
  if num4 > 0.999999 then
    let num3 := 1 - amount
    let num2 := if num4a < 0 then -amount else amount
    ⟨num3 * left.x + num2 * right.x, num3 * left.y + num2 * right.y,
      num3 * left.z + num2 * right.z, num3 * left.w + num2 * right.w⟩
  else
    let num5 := Real.arccos num4
    let num6 := 1.0 / Real.sin num5
    let num3 := Real.sin ((1.0 - amount) * num5) * num6
    let num2 := if num4a < 0 then -(Real.sin (amount * num5)) * num6
      else Real.sin (amount * num5) * num6
    ⟨num3 * left.x + num2 * right.x, num3 * left.y + num2 * right.y,
      num3 * left.z + num2 * right.z, num3 * left.w + num2 * right.w⟩

/-- Source Quaternion.slerp(left, right, amount): allocates Identity() and
delegates to slerpToRef. -/
def slerp (left right : Quaternion) (amount : ℝ) : Quaternion :=
  slerpToRef left right amount Identity

/-- Source constant DEG2RAD = Math.PI / 180. -/
def DEG2RAD : ℝ :=
  Real.pi / 180

/-- Source Quaternion.angleAxis(degress, axis): returns Identity() when
lengthSquared(axis) === 0; otherwise builds the quaternion from the
normalized axis scaled by sin of the half angle, with cos of the half angle
as w, and normalizes the result. -/
def angleAxis (degress : ℝ) (axis : Vector3) : Quaternion :=
  if Vector3.lengthSquared axis = 0 then
    Identity
  else
    let radians := degress * DEG2RAD * 0.5
    let a2 := Vector3.normalize axis
    let a2s := Vector3.scaleToRef a2 (Real.sin radians) a2
    normalize ⟨a2s.x, a2s.y, a2s.z, Real.cos radians⟩

end Quaternion

/-- Matrix data: the sixteen entries of the row-major store _m (fields m0..m15
mirror _m[0].._m[15]) together with the cached metadata of the source type
MutableMatrix: updateFlag, isIdentity, isIdentity3x2 and their two dirty bits. -/
@[ext]
structure Matrix where
  updateFlag : ℕ
  isIdentity : Bool
  isIdentity3x2 : Bool
  isIdentityDirty : Bool
  isIdentity3x2Dirty : Bool
  m0 : ℝ
  m1 : ℝ
  m2 : ℝ
  m3 : ℝ
  m4 : ℝ
  m5 : ℝ
  m6 : ℝ
  m7 : ℝ
  m8 : ℝ
  m9 : ℝ
  m10 : ℝ
  m11 : ℝ
  m12 : ℝ
  m13 : ℝ
  m14 : ℝ
  m15 : ℝ

namespace Matrix

/-- Source _markAsUpdated(self): assigns updateFlag = _updateFlagSeed++ and
forces both identity caches to the dirty, not-identity state.  The seed is the
process-wide counter, threaded explicitly; the returned pair is (updated
matrix, updated seed). -/
def markAsUpdated (self : Matrix) (seed : ℕ) : Matrix × ℕ :=
  (⟨seed, false, false, true, true,
    self.m0, self.m1, self.m2, self.m3, self.m4, self.m5, self.m6, self.m7,
    self.m8, self.m9, self.m10, self.m11, self.m12, self.m13, self.m14, self.m15⟩,
   seed + 1)

/-- Source _updateIdentityStatus(self, isIdentity, isIdentityDirty,
isIdentity3x2, isIdentity3x2Dirty): assigns updateFlag = _updateFlagSeed++ and
sets the identity caches analytically.  The source defaults
(isIdentityDirty = false, isIdentity3x2 = false, isIdentity3x2Dirty = true)
are passed explicitly at every call site below. -/
def updateIdentityStatus (self : Matrix) (isIdentity isIdentityDirty isIdentity3x2 isIdentity3x2Dirty : Bool) (seed : ℕ) : Matrix × ℕ :=
  let isIdentity3x2v := isIdentity || isIdentity3x2
  (⟨seed, isIdentity, isIdentity3x2v,
    if isIdentity then false else isIdentityDirty,
    if isIdentity3x2v then false else isIdentity3x2Dirty,
    self.m0, self.m1, self.m2, self.m3, self.m4, self.m5, self.m6, self.m7,
    self.m8, self.m9, self.m10, self.m11, self.m12, self.m13, self.m14, self.m15⟩,
   seed + 1)

/-- Source Matrix.create(): a zero-filled matrix with metadata initialized as
in the object literal, then _updateIdentityStatus(newMatrix, false). -/
def create (seed : ℕ) : Matrix × ℕ :=
  let newMatrix : Matrix :=
    ⟨0, false, true, true, true, 0, 0, 0, 0, 0, 0, 0, 0, 0, 0, 0, 0, 0, 0, 0, 0⟩
  updateIdentityStatus newMatrix false false false true seed

/-- Source Matrix.fromValuesToRef(initialM11..initialM44, result): stores the
sixteen values in result and calls _markAsUpdated(result). -/
def fromValuesToRef (v0 v1 v2 v3 v4 v5 v6 v7 v8 v9 v10 v11 v12 v13 v14 v15 : ℝ) (result : Matrix) (seed : ℕ) : Matrix × ℕ :=
  markAsUpdated
    ⟨result.updateFlag, result.isIdentity, result.isIdentity3x2,
     result.isIdentityDirty, result.isIdentity3x2Dirty,
     v0, v1, v2, v3, v4, v5, v6, v7, v8, v9, v10, v11, v12, v13, v14, v15⟩
    seed

/-- Source Matrix.fromValues(initialM11..initialM44): create() then store the
sixteen values and _markAsUpdated. -/
def fromValues (v0 v1 v2 v3 v4 v5 v6 v7 v8 v9 v10 v11 v12 v13 v14 v15 : ℝ) (seed : ℕ) : Matrix × ℕ :=
  let c := create seed
  markAsUpdated
    ⟨(c.1).updateFlag, (c.1).isIdentity, (c.1).isIdentity3x2,
     (c.1).isIdentityDirty, (c.1).isIdentity3x2Dirty,
     v0, v1, v2, v3, v4, v5, v6, v7, v8, v9, v10, v11, v12, v13, v14, v15⟩
    c.2

/-- Source Matrix.Identity(): fromValues of the identity entries followed by
_updateIdentityStatus(identity, true). -/
def Identity (seed : ℕ) : Matrix × ℕ :=
  let i := fromValues 1.0 0.0 0.0 0.0 0.0 1.0 0.0 0.0 0.0 0.0 1.0 0.0 0.0 0.0 0.0 1.0 seed
  updateIdentityStatus i.1 true false false true i.2

/-- Source Matrix.copy(from, dest): copyToArray writes the sixteen entries of
the source into dest, then _updateIdentityStatus propagates the source's
cached flags. -/
def copy (source : Matrix) (dest : Matrix) (seed : ℕ) : Matrix × ℕ :=
  let dest1 : Matrix :=
    ⟨dest.updateFlag, dest.isIdentity, dest.isIdentity3x2,
     dest.isIdentityDirty, dest.isIdentity3x2Dirty,
     source.m0, source.m1, source.m2, source.m3, source.m4, source.m5,
     source.m6, source.m7, source.m8, source.m9, source.m10, source.m11,
     source.m12, source.m13, source.m14, source.m15⟩
  updateIdentityStatus dest1 source.isIdentity source.isIdentityDirty
    source.isIdentity3x2 source.isIdentity3x2Dirty seed

/-- Source Matrix.determinant(self): returns 1 immediately when the isIdentity
flag is set, otherwise the Laplace expansion along the first row with the
precomputed 2x2 subdeterminants of the last two rows. -/
def determinant (self : Matrix) : ℝ :=
  if self.isIdentity then 1
  else
    let m00 := self.m0
    let m01 := self.m1
    let m02 := self.m2
    let m03 := self.m3
    let m10 := self.m4
    let m11 := self.m5
    let m12 := self.m6
    let m13 := self.m7
    let m20 := self.m8
    let m21 := self.m9
    let m22 := self.m10
    let m23 := self.m11
    let m30 := self.m12
    let m31 := self.m13
    let m32 := self.m14
    let m33 := self.m15
    let det_22_33 := m22 * m33 - m32 * m23
    let det_21_33 := m21 * m33 - m31 * m23
    let det_21_32 := m21 * m32 - m31 * m22
    let det_20_33 := m20 * m33 - m30 * m23
    let det_20_32 := m20 * m32 - m22 * m30
    let det_20_31 := m20 * m31 - m30 * m21
    let cofact_00 := m11 * det_22_33 - m12 * det_21_33 + m13 * det_21_32
    let cofact_01 := -(m10 * det_22_33 - m12 * det_20_33 + m13 * det_20_32)
    let cofact_02 := m10 * det_21_33 - m11 * det_20_33 + m13 * det_20_31
    let cofact_03 := -(m10 * det_21_32 - m11 * det_20_32 + m12 * det_20_31)
    m00 * cofact_00 + m01 * cofact_01 + m02 * cofact_02 + m03 * cofact_03

/-- Source Matrix.invertToRef(source, result): copies when the isIdentity flag
of the source is set; otherwise computes the first-row cofactors, and when the
resulting determinant is exactly 0 copies the source unchanged, else writes the
adjugate divided by the determinant through fromValuesToRef. -/
def invertToRef (source : Matrix) (result : Matrix) (seed : ℕ) : Matrix × ℕ :=
  if source.isIdentity then copy source result seed
  else
    let m00 := source.m0
    let m01 := source.m1
    let m02 := source.m2
    let m03 := source.m3
    let m10 := source.m4
    let m11 := source.m5
    let m12 := source.m6
    let m13 := source.m7
    let m20 := source.m8
    let m21 := source.m9
    let m22 := source.m10
    let m23 := source.m11
    let m30 := source.m12
    let m31 := source.m13
    let m32 := source.m14
    let m33 := source.m15
    let det_22_33 := m22 * m33 - m32 * m23
    let det_21_33 := m21 * m33 - m31 * m23
    let det_21_32 := m21 * m32 - m31 * m22
    let det_20_33 := m20 * m33 - m30 * m23
    let det_20_32 := m20 * m32 - m22 * m30
    let det_20_31 := m20 * m31 - m30 * m21
    let cofact_00 := m11 * det_22_33 - m12 * det_21_33 + m13 * det_21_32
    let cofact_01 := -(m10 * det_22_33 - m12 * det_20_33 + m13 * det_20_32)
    let cofact_02 := m10 * det_21_33 - m11 * det_20_33 + m13 * det_20_31
    let cofact_03 := -(m10 * det_21_32 - m11 * det_20_32 + m12 * det_20_31)
    let det := m00 * cofact_00 + m01 * cofact_01 + m02 * cofact_02 + m03 * cofact_03
    if det = 0 then copy source result seed
    else
      let detInv := 1 / det
      let det_12_33 := m12 * m33 - m32 * m13
      let det_11_33 := m11 * m33 - m31 * m13
      let det_11_32 := m11 * m32 - m31 * m12
      let det_10_33 := m10 * m33 - m30 * m13
      let det_10_32 := m10 * m32 - m30 * m12
      let det_10_31 := m10 * m31 - m30 * m11
      let det_12_23 := m12 * m23 - m22 * m13
      let det_11_23 := m11 * m23 - m21 * m13
      let det_11_22 := m11 * m22 - m21 * m12
      let det_10_23 := m10 * m23 - m20 * m13
      let det_10_22 := m10 * m22 - m20 * m12
      let det_10_21 := m10 * m21 - m20 * m11
      let cofact_10 := -(m01 * det_22_33 - m02 * det_21_33 + m03 * det_21_32)
      let cofact_11 := m00 * det_22_33 - m02 * det_20_33 + m03 * det_20_32
      let cofact_12 := -(m00 * det_21_33 - m01 * det_20_33 + m03 * det_20_31)
      let cofact_13 := m00 * det_21_32 - m01 * det_20_32 + m02 * det_20_31
      let cofact_20 := m01 * det_12_33 - m02 * det_11_33 + m03 * det_11_32
      let cofact_21 := -(m00 * det_12_33 - m02 * det_10_33 + m03 * det_10_32)
      let cofact_22 := m00 * det_11_33 - m01 * det_10_33 + m03 * det_10_31
      let cofact_23 := -(m00 * det_11_32 - m01 * det_10_32 + m02 * det_10_31)
      let cofact_30 := -(m01 * det_12_23 - m02 * det_11_23 + m03 * det_11_22)
      let cofact_31 := m00 * det_12_23 - m02 * det_10_23 + m03 * det_10_22
      let cofact_32 := -(m00 * det_11_23 - m01 * det_10_23 + m03 * det_10_21)
      let cofact_33 := m00 * det_11_22 - m01 * det_10_22 + m02 * det_10_21
      fromValuesToRef
        (cofact_00 * detInv) (cofact_10 * detInv) (cofact_20 * detInv) (cofact_30 * detInv)
        (cofact_01 * detInv) (cofact_11 * detInv) (cofact_21 * detInv) (cofact_31 * detInv)
        (cofact_02 * detInv) (cofact_12 * detInv) (cofact_22 * detInv) (cofact_32 * detInv)
        (cofact_03 * detInv) (cofact_13 * detInv) (cofact_23 * detInv) (cofact_33 * detInv)
        result seed

end Matrix

namespace Quaternion

/-- Source Quaternion.fromRotationMatrixToRef(matrix, result): trace-based
four-branch conversion of the upper 3x3 block into a quaternion; every branch
overwrites all four fields of result. -/
def fromRotationMatrixToRef (matrix : Matrix) (_result : Quaternion) : Quaternion :=
  let m11 := matrix.m0
  let m12 := matrix.m4
  let m13 := matrix.m8
  let m21 := matrix.m1
  let m22 := matrix.m5
  let m23 := matrix.m9
  let m31 := matrix.m2
  let m32 := matrix.m6
  let m33 := matrix.m10
  let trace := m11 + m22 + m33
  if trace > 0 then
    let s := 0.5 / Real.sqrt (trace + 1.0)
    ⟨(m32 - m23) * s, (m13 - m31) * s, (m21 - m12) * s, 0.25 / s⟩
  else if m11 > m22 ∧ m11 > m33 then
    let s := 2.0 * Real.sqrt (1.0 + m11 - m22 - m33)
    ⟨0.25 * s, (m12 + m21) / s, (m13 + m31) / s, (m32 - m23) / s⟩
  else if m22 > m33 then
    let s := 2.0 * Real.sqrt (1.0 + m22 - m11 - m33)
    ⟨(m12 + m21) / s, 0.25 * s, (m23 + m32) / s, (m13 - m31) / s⟩
  else
    let s := 2.0 * Real.sqrt (1.0 + m33 - m11 - m22)
    ⟨(m13 + m31) / s, (m23 + m32) / s, 0.25 * s, (m21 - m12) / s⟩

end Quaternion

namespace Matrix

/-- Caller-visible outcome of Matrix.decompose: the boolean return value plus
the final contents of the caller-supplied output objects (none when the caller
did not supply one).  In the source, an assignment to one of the parameter
variables (scale, rotation, translation) rebinds the local name only, so such
assignments do not change the corresponding field here; only mutations of the
supplied object's own properties do. -/
structure DecomposeOut where
  ret : Bool
  scale : Option Vector3
  rotation : Option Quaternion
  translation : Option Vector3

/-- Source Matrix.decompose(self, scale?, rotation?, translation?).
Identity short-circuit: the source executes `translation = Vector3.create(0,0,0)`,
`scale = Vector3.create(0,0,0)` and `rotation = Quaternion.create(0,0,0,1)`,
which rebind the local parameters and leave the caller's objects untouched, so
the caller-visible outputs are returned unchanged.  Non-identity path: the line
`translation = Vector3.create(m[12],m[13],m[14])` likewise rebinds the local
only; usedScale aliases the caller's scale object (when supplied) and its three
components are mutated to the row magnitudes, with the Y component multiplied
by -1 when the determinant is non-positive; on a zero scale component the
source rebinds the local rotation and returns false; otherwise the rotation
object (when supplied) is overwritten through fromRotationMatrixToRef applied
to the normalized 3x3 block built in a temporary matrix. -/
def decompose (self : Matrix) (scale : Option Vector3) (rotation : Option Quaternion) (translation : Option Vector3) (seed : ℕ) : DecomposeOut × ℕ :=
  if self.isIdentity then
    (⟨true, scale, rotation, translation⟩, seed)
  else
    let usedScaleX := Real.sqrt (self.m0 * self.m0 + self.m1 * self.m1 + self.m2 * self.m2)
    let usedScaleY0 := Real.sqrt (self.m4 * self.m4 + self.m5 * self.m5 + self.m6 * self.m6)
    let usedScaleZ := Real.sqrt (self.m8 * self.m8 + self.m9 * self.m9 + self.m10 * self.m10)
    let usedScaleY := if determinant self ≤ 0 then usedScaleY0 * (-1) else usedScaleY0
    let scaleOut := scale.map fun _ => (⟨usedScaleX, usedScaleY, usedScaleZ⟩ : Vector3)
    if usedScaleX = 0 ∨ usedScaleY = 0 ∨ usedScaleZ = 0 then
      (⟨false, scaleOut, rotation, translation⟩, seed)
    else
      match rotation with
      | none => (⟨true, scaleOut, none, translation⟩, seed)
      | some r =>
        let sx := 1 / usedScaleX
        let sy := 1 / usedScaleY
        let sz := 1 / usedScaleZ
        let tmp := create seed
        let tmp2 := fromValuesToRef
          (self.m0 * sx) (self.m1 * sx) (self.m2 * sx) 0.0
          (self.m4 * sy) (self.m5 * sy) (self.m6 * sy) 0.0
          (self.m8 * sz) (self.m9 * sz) (self.m10 * sz) 0.0
          0.0 0.0 0.0 1.0 tmp.1 tmp.2
        (⟨true, scaleOut, some (Quaternion.fromRotationMatrixToRef tmp2.1 r), translation⟩, tmp2.2)

/-- Source Matrix.getRotationMatrixToRef(self, result): calls decompose with a
fresh zero scale vector; on failure the source executes `result = Identity()`,
which rebinds the local parameter (the constructed identity matrix is dropped
and the caller's result object stays untouched); on success the normalized 3x3
block is written into result through fromValuesToRef. -/
def getRotationMatrixToRef (self : Matrix) (result : Matrix) (seed : ℕ) : Matrix × ℕ :=
  let scale := Vector3.Zero
  let d := decompose self (some scale) none none seed
  if d.1.ret = false then
    let i := Identity d.2
    (result, i.2)
  else
    let sc := (d.1.scale).getD Vector3.Zero
    let sx := 1 / sc.x
    let sy := 1 / sc.y
    let sz := 1 / sc.z
    fromValuesToRef
      (self.m0 * sx) (self.m1 * sx) (self.m2 * sx) 0.0
      (self.m4 * sy) (self.m5 * sy) (self.m6 * sy) 0.0
      (self.m8 * sz) (self.m9 * sz) (self.m10 * sz) 0.0
      0.0 0.0 0.0 1.0 result d.2

end Matrix

/-- Plane data: a normal Vector3 plus the scalar d, as in the source type
MutablePlane. -/
@[ext]
structure Plane where
  normal : Vector3
  d : ℝ

namespace Plane

/-- Source Plane.create(a, b, c, d): normal = Vector3.create(a, b, c) and d. -/
def create (a b c d : ℝ) : Plane :=
  ⟨Vector3.create a b c, d⟩

/-- Source Plane.normalize(plane): allocates result = create(0,0,0,0),
computes norm and magnitude (magnitude stays 0.0 when norm is 0), writes the
scaled normal components into result.normal, executes `result.d *= magnitude`
(result.d is still the 0 from the allocation), and then executes
`return plane` — the computed result is discarded and the input plane itself
is returned. -/
def normalize (plane : Plane) : Plane :=
  let norm := Real.sqrt (plane.normal.x * plane.normal.x +
    plane.normal.y * plane.normal.y + plane.normal.z * plane.normal.z)
  let magnitude := if norm ≠ 0 then 1.0 / norm else 0.0
  let _result : Plane :=
    ⟨⟨plane.normal.x * magnitude, plane.normal.y * magnitude,
      plane.normal.z * magnitude⟩, 0 * magnitude⟩
  plane

end Plane

/-- Model of an IEEE binary64 value as far as special-value structure is
concerned: a finite value carrying an exact real number, a signed infinity
(neg = true for negative infinity), or NaN.  Rounding, underflow and overflow
of finite values are not modelled, so conclusions about the program are drawn
only at inputs where every step of the modelled computation is exact in
binary64.  A finite 0 stands for IEEE +0, matching the non-negative zero
literals appearing in the modelled computations. -/
inductive FNum where
  | fin (val : ℝ)
  | inf (neg : Bool)
  | nan

namespace FNum

/-- Truth value of "this IEEE value is finite" (neither infinite nor NaN). -/
def isFinite : FNum → Bool
  | fin _ => true
  | _ => false

/-- IEEE addition on the special-value model. -/
def fadd : FNum → FNum → FNum
  | nan, _ => nan
  | _, nan => nan
  | fin a, fin b => fin (a + b)
  | fin _, inf s => inf s
  | inf s, fin _ => inf s
  | inf s, inf t => if s = t then inf s else nan

/-- IEEE multiplication on the special-value model: infinity times zero is
NaN, otherwise signs combine. -/
def fmul : FNum → FNum → FNum
  | nan, _ => nan
  | _, nan => nan
  | fin a, fin b => fin (a * b)
  | fin a, inf s => if a = 0 then nan else inf (xor (a < 0) s)
  | inf s, fin b => if b = 0 then nan else inf (xor s (b < 0))
  | inf s, inf t => inf (xor s t)

/-- IEEE division on the special-value model: a nonzero finite value divided
by (+)0 is a signed infinity, 0/0 is NaN, finite over infinity is 0, infinity
over infinity is NaN. -/
def fdiv : FNum → FNum → FNum
  | nan, _ => nan
  | _, nan => nan
  | fin a, fin b =>
    if b = 0 then (if a = 0 then nan else inf (a < 0)) else fin (a / b)
  | fin _, inf _ => fin 0
  | inf s, fin b => inf (xor s (b < 0))
  | inf _, inf _ => nan

/-- IEEE square root on the special-value model: NaN on negative inputs and
on negative infinity. -/
def fsqrt : FNum → FNum
  | nan => nan
  | fin a => if a < 0 then nan else fin (Real.sqrt a)
  | inf s => if s then nan else inf false

end FNum

/-- Quaternion whose components are IEEE values, for the special-value model
of Quaternion.normalize. -/
@[ext]
structure QuaternionF where
  x : FNum
  y : FNum
  z : FNum
  w : FNum

namespace QuaternionF

/-- Source Quaternion.lengthSquared under the IEEE special-value model:
q.x*q.x + q.y*q.y + q.z*q.z + q.w*q.w with left-associated additions. -/
def lengthSquared (q : QuaternionF) : FNum :=
  FNum.fadd (FNum.fadd (FNum.fadd (FNum.fmul q.x q.x) (FNum.fmul q.y q.y))
    (FNum.fmul q.z q.z)) (FNum.fmul q.w q.w)

/-- Source Quaternion.length under the IEEE special-value model. -/
def length (q : QuaternionF) : FNum :=
  FNum.fsqrt (lengthSquared q)

/-- Source Quaternion.normalize under the IEEE special-value model:
qLength = 1.0/length(q), then each component times qLength.  No zero-length
guard exists in the source. -/
def normalize (q : QuaternionF) : QuaternionF :=
  let qLength := FNum.fdiv (FNum.fin 1.0) (length q)
  ⟨FNum.fmul q.x qLength, FNum.fmul q.y qLength,
   FNum.fmul q.z qLength, FNum.fmul q.w qLength⟩

end QuaternionF

/-- Sample input: the matrix produced by Matrix.Identity() at seed 0. -/
def identitySample : Matrix :=
  (Matrix.Identity 0).1

/-- Sample input: the matrix produced by Matrix.fromValues with an identity
3x3 block and translation row (7, 8, 9), at seed 0.  Its isIdentity flag is
false, as _markAsUpdated leaves it. -/
def translatedSample : Matrix :=
  (Matrix.fromValues 1 0 0 0 0 1 0 0 0 0 1 0 7 8 9 1 0).1

/-- Sample input: the zero-filled matrix produced by Matrix.create() at
seed 0. -/
def zeroSample : Matrix :=
  (Matrix.create 0).1

/-- C9: Quaternion.angleAxis called with the zero vector as axis returns the
identity quaternion (0,0,0,1) for every angle in degrees, taking the
zero-length-axis guard branch (no division is performed there). -/
theorem C9_angleAxis_zero_axis_identity (degress : ℝ) :
    Quaternion.angleAxis degress (Vector3.create 0 0 0) = Quaternion.create 0 0 0 1 := by
  norm_num [Quaternion.angleAxis, Vector3.lengthSquared, Vector3.create,
    Quaternion.Identity, Quaternion.create]

/-- C7: _markAsUpdated and _updateIdentityStatus (the only two stamp writers;
every mutating matrix operation of the source ends in one of them) assign
updateFlag the current value of the shared counter and advance the counter,
so a matrix whose flag was drawn from an earlier counter state gets a
different flag after any mutation, and stamp assignments at distinct counter
states never produce the same value. -/
theorem C7_updateFlag_fresh_and_unique (self other : Matrix) (b1 b2 b3 b4 : Bool)
    (seed s2 : ℕ) (hflag : self.updateFlag < seed) (hs : seed < s2) :
    (Matrix.markAsUpdated self seed).1.updateFlag ≠ self.updateFlag
    ∧ (Matrix.updateIdentityStatus self b1 b2 b3 b4 seed).1.updateFlag ≠ self.updateFlag
    ∧ (Matrix.fromValuesToRef 0 0 0 0 0 0 0 0 0 0 0 0 0 0 0 0 self seed).1.updateFlag ≠ self.updateFlag
    ∧ (Matrix.copy other self seed).1.updateFlag ≠ self.updateFlag
    ∧ seed < (Matrix.markAsUpdated self seed).2
    ∧ seed < (Matrix.updateIdentityStatus self b1 b2 b3 b4 seed).2
    ∧ (Matrix.markAsUpdated self seed).1.updateFlag ≠ (Matrix.markAsUpdated other s2).1.updateFlag
    ∧ (Matrix.markAsUpdated self seed).1.updateFlag ≠ (Matrix.updateIdentityStatus other b1 b2 b3 b4 s2).1.updateFlag
    ∧ (Matrix.updateIdentityStatus self b1 b2 b3 b4 seed).1.updateFlag ≠ (Matrix.markAsUpdated other s2).1.updateFlag := by
  simp only [Matrix.markAsUpdated, Matrix.updateIdentityStatus,
    Matrix.fromValuesToRef, Matrix.copy]
  omega

/-- C7 witness: the zero matrix created at seed 0 carries updateFlag 0; at
counter states 1 and 2 the stamping discipline holds. -/
theorem C7_updateFlag_fresh_and_unique_witness :
    zeroSample.updateFlag < 1
    ∧ (1 : ℕ) < 2
    ∧ ((Matrix.markAsUpdated zeroSample 1).1.updateFlag ≠ zeroSample.updateFlag
      ∧ (Matrix.updateIdentityStatus zeroSample false false false false 1).1.updateFlag ≠ zeroSample.updateFlag
      ∧ (Matrix.fromValuesToRef 0 0 0 0 0 0 0 0 0 0 0 0 0 0 0 0 zeroSample 1).1.updateFlag ≠ zeroSample.updateFlag
      ∧ (Matrix.copy zeroSample zeroSample 1).1.updateFlag ≠ zeroSample.updateFlag
      ∧ (1 : ℕ) < (Matrix.markAsUpdated zeroSample 1).2
      ∧ (1 : ℕ) < (Matrix.updateIdentityStatus zeroSample false false false false 1).2
      ∧ (Matrix.markAsUpdated zeroSample 1).1.updateFlag ≠ (Matrix.markAsUpdated zeroSample 2).1.updateFlag
      ∧ (Matrix.markAsUpdated zeroSample 1).1.updateFlag ≠ (Matrix.updateIdentityStatus zeroSample false false false false 2).1.updateFlag
      ∧ (Matrix.updateIdentityStatus zeroSample false false false false 1).1.updateFlag ≠ (Matrix.markAsUpdated zeroSample 2).1.updateFlag) := by
  have h0 : zeroSample.updateFlag < 1 := by
    simp [zeroSample, Matrix.create, Matrix.updateIdentityStatus]
  exact ⟨h0, by norm_num,
    C7_updateFlag_fresh_and_unique zeroSample zeroSample false false false false 1 2 h0 (by norm_num)⟩

/-- C1: evaluation of Matrix.decompose on the identity matrix with
caller-supplied outputs holding (5,5,5), (1,2,3,4) and (1,2,3).  The call
returns true but the caller-visible outputs are exactly the values supplied:
the identity branch rebinds its local parameters instead of writing through
the references, so the translation does not end up (0,0,0) and the scale does
not end up (0,0,0), contradicting the claim (and the doc comment of the
source, which says the outputs are references to update). -/
theorem C1_decompose_identity_outputs_unwritten :
    Matrix.decompose identitySample (some (Vector3.create 5 5 5))
        (some (Quaternion.create 1 2 3 4)) (some (Vector3.create 1 2 3)) 3
      = (⟨true, some (Vector3.create 5 5 5), some (Quaternion.create 1 2 3 4),
          some (Vector3.create 1 2 3)⟩, 3)
    ∧ Vector3.create 1 2 3 ≠ Vector3.create 0 0 0
    ∧ Vector3.create 5 5 5 ≠ Vector3.create 0 0 0 := by
  refine ⟨rfl, ?_, ?_⟩ <;> simp [Vector3.create]

/-- C8: evaluation of Plane.normalize at the plane with normal (2,0,0) and
d = 4.  The source builds the scaled plane into a local result but then
returns the input plane itself, so the returned normal still has length 2,
not 1, and d is unscaled — contradicting the claim (and the doc comment of
the source, which says it returns the updated plane). -/
theorem C8_plane_normalize_returns_input_unchanged :
    Plane.normalize (Plane.create 2 0 0 4) = Plane.create 2 0 0 4
    ∧ Vector3.length (Plane.normalize (Plane.create 2 0 0 4)).normal ≠ 1
    ∧ (Plane.normalize (Plane.create 2 0 0 4)).d = 4 := by
  have h4 : Real.sqrt 4 = 2 := by
    rw [show (4 : ℝ) = 2 ^ 2 by norm_num]
    exact Real.sqrt_sq (by norm_num)
  refine ⟨rfl, ?_, rfl⟩
  show Vector3.length (Plane.create 2 0 0 4).normal ≠ 1
  simp only [Plane.create, Vector3.create, Vector3.length]
  norm_num [h4]

/-- C2: evaluation of Matrix.decompose on a non-identity matrix whose last
row is (7, 8, 9, 1), with a caller-supplied translation output holding
(1,2,3).  The scale output is written with the row magnitudes as claimed, and
the call returns true, but the translation output still holds (1,2,3) rather
than the last row (7,8,9): the line that should write it rebinds the local
parameter instead, contradicting the translation part of the claim (and the
doc comment of the source, and the repository test that expects the
translation output to be filled). -/
theorem C2_decompose_translation_unwritten :
    Matrix.decompose translatedSample (some (Vector3.create 5 5 5)) none
        (some (Vector3.create 1 2 3)) 0
      = (⟨true, some (Vector3.create 1 1 1), none, some (Vector3.create 1 2 3)⟩, 0)
    ∧ Vector3.create 1 2 3 ≠ Vector3.create 7 8 9 := by
  constructor
  · norm_num [Matrix.decompose, translatedSample, Matrix.fromValues, Matrix.create,
      Matrix.updateIdentityStatus, Matrix.markAsUpdated, Matrix.determinant,
      Vector3.create, Real.sqrt_one]
  · simp [Vector3.create]

/-- C5: Matrix.invertToRef copies the source into the result whenever the
source's isIdentity flag is true (no inverse is computed), and likewise
whenever the determinant of the source is exactly 0 the source is copied
unchanged instead of dividing by it. -/
theorem C5_invertToRef_copies_on_identity_or_zero_det (source result : Matrix) (seed : ℕ)
    (h : source.isIdentity = true ∨ Matrix.determinant source = 0) :
    Matrix.invertToRef source result seed = Matrix.copy source result seed := by
  simp only [Matrix.invertToRef]
  split_ifs with h1 h2
  · rfl
  · rfl
  · exfalso
    rcases h with h | h
    · exact h1 h
    · apply h2
      simp only [Matrix.determinant] at h
      rw [if_neg h1] at h
      exact h

/-- C5 witness: at the identity matrix built at seed 0 the hypothesis holds
and invertToRef agrees with copy. -/
theorem C5_invertToRef_copies_witness :
    (identitySample.isIdentity = true ∨ Matrix.determinant identitySample = 0)
    ∧ Matrix.invertToRef identitySample zeroSample 7 = Matrix.copy identitySample zeroSample 7 := by
  have hid : identitySample.isIdentity = true := rfl
  exact ⟨Or.inl hid,
    C5_invertToRef_copies_on_identity_or_zero_det identitySample zeroSample 7 (Or.inl hid)⟩

/-- C6: Vector3.normalize returns its input unchanged when the length is
exactly 0 or exactly 1 (and normalizeToRef then copies the input into the
output unchanged), and in every other case the only division performed is by
the length, which the guard has established to be nonzero. -/
theorem C6_normalize_degenerate_shortcut (v out : Vector3) :
    (Vector3.length v = 0 ∨ Vector3.length v = 1 →
      Vector3.normalize v = v ∧ Vector3.normalizeToRef v out = v)
    ∧ (Vector3.length v ≠ 0 → Vector3.length v ≠ 1 →
      Vector3.normalize v = Vector3.scaleToRef v (1.0 / Vector3.length v) (Vector3.create 0 0 0)) := by
  constructor
  · intro h
    have h2 : Vector3.length v = 0 ∨ Vector3.length v = 1.0 := by
      rcases h with h | h
      · exact Or.inl h
      · right
        rw [h]
        norm_num
    constructor
    · simp only [Vector3.normalize, Vector3.normalizeFromLength,
        Vector3.normalizeFromLengthToRef, if_pos h2, Vector3.copyFrom]
    · simp only [Vector3.normalizeToRef, Vector3.normalizeFromLengthToRef,
        if_pos h2, Vector3.copyFrom]
  · intro h0 h1
    have hcond : ¬(Vector3.length v = 0 ∨ Vector3.length v = 1.0) := by
      push_neg
      refine ⟨h0, ?_⟩
      rw [show (1.0 : ℝ) = 1 by norm_num]
      exact h1
    simp only [Vector3.normalize, Vector3.normalizeFromLength,
      Vector3.normalizeFromLengthToRef, if_neg hcond]

/-- C6 witness: the unit vector (1,0,0) has length exactly 1 and is returned
unchanged by normalize and by normalizeToRef into the output (7,7,7). -/
theorem C6_normalize_degenerate_shortcut_witness :
    (Vector3.length (Vector3.create 1 0 0) = 0 ∨ Vector3.length (Vector3.create 1 0 0) = 1)
    ∧ Vector3.normalize (Vector3.create 1 0 0) = Vector3.create 1 0 0
    ∧ Vector3.normalizeToRef (Vector3.create 1 0 0) (Vector3.create 7 7 7) = Vector3.create 1 0 0 := by
  have hlen : Vector3.length (Vector3.create 1 0 0) = 1 := by
    norm_num [Vector3.length, Vector3.create]
  have h := (C6_normalize_degenerate_shortcut (Vector3.create 1 0 0) (Vector3.create 7 7 7)).1
    (Or.inr hlen)
  exact ⟨Or.inr hlen, h.1, h.2⟩

/-- C10: when the internal decompose call fails, getRotationMatrixToRef
returns with the caller-supplied result matrix completely unchanged — the
identity matrix constructed in the failure branch is bound to the local
parameter only and never stored in the caller's output. -/
theorem C10_getRotationMatrixToRef_failure_leaves_result (self result : Matrix) (seed : ℕ)
    (h : ((Matrix.decompose self (some Vector3.Zero) none none seed).1).ret = false) :
    (Matrix.getRotationMatrixToRef self result seed).1 = result := by
  simp only [Matrix.getRotationMatrixToRef]
  rw [if_pos h]

/-- C10 witness: on the zero-filled matrix (all row magnitudes 0) decompose
fails, and getRotationMatrixToRef leaves the caller-supplied identity-valued
output untouched. -/
theorem C10_getRotationMatrixToRef_failure_witness :
    ((Matrix.decompose zeroSample (some Vector3.Zero) none none 0).1).ret = false
    ∧ (Matrix.getRotationMatrixToRef zeroSample identitySample 0).1 = identitySample := by
  have h : ((Matrix.decompose zeroSample (some Vector3.Zero) none none 0).1).ret = false := by
    norm_num [Matrix.decompose, zeroSample, Matrix.create, Matrix.updateIdentityStatus,
      Matrix.determinant, Vector3.Zero, Vector3.create]
  exact ⟨h, C10_getRotationMatrixToRef_failure_leaves_result zeroSample identitySample 0 h⟩

/-- C4 counterexample: under the IEEE special-value model, normalizing the
zero quaternion (0,0,0,0) divides 1.0 by a zero length, producing +infinity,
and multiplying the zero components by it produces NaN in every component —
so not every component of Quaternion.normalize is finite, contradicting the
claim at the concrete input (0,0,0,0). -/
theorem C4_normalize_zero_quaternion_nan :
    (QuaternionF.normalize ⟨FNum.fin 0, FNum.fin 0, FNum.fin 0, FNum.fin 0⟩).x = FNum.nan
    ∧ (QuaternionF.normalize ⟨FNum.fin 0, FNum.fin 0, FNum.fin 0, FNum.fin 0⟩).y = FNum.nan
    ∧ (QuaternionF.normalize ⟨FNum.fin 0, FNum.fin 0, FNum.fin 0, FNum.fin 0⟩).z = FNum.nan
    ∧ (QuaternionF.normalize ⟨FNum.fin 0, FNum.fin 0, FNum.fin 0, FNum.fin 0⟩).w = FNum.nan
    ∧ (QuaternionF.normalize ⟨FNum.fin 0, FNum.fin 0, FNum.fin 0, FNum.fin 0⟩).x.isFinite = false := by
  norm_num [QuaternionF.normalize, QuaternionF.length, QuaternionF.lengthSquared,
    FNum.fmul, FNum.fadd, FNum.fsqrt, FNum.fdiv, FNum.isFinite]

/-- C4 amended: Quaternion.normalize has no zero-length fallback and keeps no
finiteness guarantee: at the zero quaternion the computed length is exactly 0,
the reciprocal 1.0/length evaluates to +infinity, and none of the four result
components is finite.  Every arithmetic step of this evaluation is exact in
binary64, so the statement transfers to the program; no finiteness is claimed
for other inputs, where binary64 underflow can also collapse the length to 0. -/
theorem C4_normalize_nan_at_zero_amended :
    QuaternionF.length ⟨FNum.fin 0, FNum.fin 0, FNum.fin 0, FNum.fin 0⟩ = FNum.fin 0
    ∧ FNum.fdiv (FNum.fin 1.0)
        (QuaternionF.length ⟨FNum.fin 0, FNum.fin 0, FNum.fin 0, FNum.fin 0⟩) = FNum.inf false
    ∧ (QuaternionF.normalize ⟨FNum.fin 0, FNum.fin 0, FNum.fin 0, FNum.fin 0⟩).x.isFinite = false
    ∧ (QuaternionF.normalize ⟨FNum.fin 0, FNum.fin 0, FNum.fin 0, FNum.fin 0⟩).y.isFinite = false
    ∧ (QuaternionF.normalize ⟨FNum.fin 0, FNum.fin 0, FNum.fin 0, FNum.fin 0⟩).z.isFinite = false
    ∧ (QuaternionF.normalize ⟨FNum.fin 0, FNum.fin 0, FNum.fin 0, FNum.fin 0⟩).w.isFinite = false := by
  norm_num [QuaternionF.normalize, QuaternionF.length, QuaternionF.lengthSquared,
    FNum.fmul, FNum.fadd, FNum.fsqrt, FNum.fdiv, FNum.isFinite]

/-- Helper: the sine of arccos t is nonzero for t in [0, 1), which covers the
trigonometric branch of slerpToRef (there the absolute dot product is at most
the 0.999999 threshold). -/
theorem sin_arccos_ne_zero {t : ℝ} (h0 : 0 ≤ t) (h1 : t < 1) :
    Real.sin (Real.arccos t) ≠ 0 := by
  rw [Real.sin_arccos]
  refine Real.sqrt_ne_zero'.mpr ?_
  nlinarith

/-- C3 counterexample: at left = (0,0,0,1), right = (0,0,0,-1) and amount 1
the dot product is -1, so slerpToRef flips the sign of the right contribution
and returns (0,0,0,1), which differs componentwise from right — refuting the
claim that slerp(a, b, 1) equals b for every pair. -/
theorem C3_slerp_at_one_counterexample :
    Quaternion.slerp (Quaternion.create 0 0 0 1) (Quaternion.create 0 0 0 (-1)) 1
      ≠ Quaternion.create 0 0 0 (-1) := by
  norm_num [Quaternion.slerp, Quaternion.slerpToRef, Quaternion.create,
    Quaternion.Identity, Quaternion.mk.injEq]

/-- C3 amended: slerp(a, b, 0) equals a componentwise for every pair; slerp
(a, b, 1) equals b componentwise whenever the dot product of a and b is
non-negative, and equals the componentwise negation of b when the dot product
is negative (the short-path sign flip). -/
theorem C3_slerp_endpoints_amended (a b : Quaternion) :
    Quaternion.slerp a b 0 = a
    ∧ (0 ≤ Quaternion.dot a b → Quaternion.slerp a b 1 = b)
    ∧ (Quaternion.dot a b < 0 →
      Quaternion.slerp a b 1 = Quaternion.create (-b.x) (-b.y) (-b.z) (-b.w)) := by
  obtain ⟨a1, a2, a3, a4⟩ := a
  obtain ⟨b1, b2, b3, b4⟩ := b
  simp only [Quaternion.slerp, Quaternion.slerpToRef, Quaternion.dot,
    Quaternion.create, Quaternion.Identity]
  refine ⟨?_, ?_, ?_⟩
  · by_cases h1 : a1 * b1 + a2 * b2 + a3 * b3 + a4 * b4 < 0
    · simp only [if_pos h1]
      by_cases h2 : -(a1 * b1 + a2 * b2 + a3 * b3 + a4 * b4) > 0.999999
      · rw [if_pos h2]
        simp only [Quaternion.mk.injEq]
        exact ⟨by ring, by ring, by ring, by ring⟩
      · rw [if_neg h2]
        have h0 : (0 : ℝ) ≤ -(a1 * b1 + a2 * b2 + a3 * b3 + a4 * b4) := by linarith
        have hlt : -(a1 * b1 + a2 * b2 + a3 * b3 + a4 * b4) < 1 := by
          have hb := not_lt.mp h2
          have hlit : (0.999999 : ℝ) < 1 := by norm_num
          linarith
        generalize hθ : Real.arccos (-(a1 * b1 + a2 * b2 + a3 * b3 + a4 * b4)) = θ
        have hsin : Real.sin θ ≠ 0 := by
          rw [← hθ]
          exact sin_arccos_ne_zero h0 hlt
        have hkey : Real.sin ((1.0 - 0) * θ) * (1.0 / Real.sin θ) = 1 := by
          rw [show (1.0 : ℝ) = 1 by norm_num, show ((1 : ℝ) - 0) = 1 by norm_num,
            one_mul, mul_one_div, div_self hsin]
        rw [hkey]
        simp only [Quaternion.mk.injEq]
        norm_num [Real.sin_zero]
    · simp only [if_neg h1]
      by_cases h2 : a1 * b1 + a2 * b2 + a3 * b3 + a4 * b4 > 0.999999
      · rw [if_pos h2]
        simp only [Quaternion.mk.injEq]
        exact ⟨by ring, by ring, by ring, by ring⟩
      · rw [if_neg h2]
        have h0 : (0 : ℝ) ≤ a1 * b1 + a2 * b2 + a3 * b3 + a4 * b4 := not_lt.mp h1
        have hlt : a1 * b1 + a2 * b2 + a3 * b3 + a4 * b4 < 1 := by
          have hb := not_lt.mp h2
          have hlit : (0.999999 : ℝ) < 1 := by norm_num
          linarith
        generalize hθ : Real.arccos (a1 * b1 + a2 * b2 + a3 * b3 + a4 * b4) = θ
        have hsin : Real.sin θ ≠ 0 := by
          rw [← hθ]
          exact sin_arccos_ne_zero h0 hlt
        have hkey : Real.sin ((1.0 - 0) * θ) * (1.0 / Real.sin θ) = 1 := by
          rw [show (1.0 : ℝ) = 1 by norm_num, show ((1 : ℝ) - 0) = 1 by norm_num,
            one_mul, mul_one_div, div_self hsin]
        rw [hkey]
        simp only [Quaternion.mk.injEq]
        norm_num [Real.sin_zero]
  · intro hD
    simp only [if_neg (not_lt.mpr hD)]
    by_cases h2 : a1 * b1 + a2 * b2 + a3 * b3 + a4 * b4 > 0.999999
    · rw [if_pos h2]
      simp only [Quaternion.mk.injEq]
      exact ⟨by ring, by ring, by ring, by ring⟩
    · rw [if_neg h2]
      have hlt : a1 * b1 + a2 * b2 + a3 * b3 + a4 * b4 < 1 := by
        have hb := not_lt.mp h2
        have hlit : (0.999999 : ℝ) < 1 := by norm_num
        linarith
      generalize hθ : Real.arccos (a1 * b1 + a2 * b2 + a3 * b3 + a4 * b4) = θ
      have hsin : Real.sin θ ≠ 0 := by
        rw [← hθ]
        exact sin_arccos_ne_zero hD hlt
      have hkey : Real.sin (1 * θ) * (1.0 / Real.sin θ) = 1 := by
        rw [show (1.0 : ℝ) = 1 by norm_num, one_mul, mul_one_div, div_self hsin]
      rw [hkey]
      have hzero : Real.sin ((1.0 - 1) * θ) = 0 := by
        rw [show ((1.0 : ℝ) - 1) = 0 by norm_num, zero_mul, Real.sin_zero]
      rw [hzero]
      simp only [Quaternion.mk.injEq]
      norm_num
  · intro hD
    simp only [if_pos hD]
    by_cases h2 : -(a1 * b1 + a2 * b2 + a3 * b3 + a4 * b4) > 0.999999
    · rw [if_pos h2]
      simp only [Quaternion.mk.injEq]
      exact ⟨by ring, by ring, by ring, by ring⟩
    · rw [if_neg h2]
      have h0 : (0 : ℝ) ≤ -(a1 * b1 + a2 * b2 + a3 * b3 + a4 * b4) := by linarith
      have hlt : -(a1 * b1 + a2 * b2 + a3 * b3 + a4 * b4) < 1 := by
        have hb := not_lt.mp h2
        have hlit : (0.999999 : ℝ) < 1 := by norm_num
        linarith
      generalize hθ : Real.arccos (-(a1 * b1 + a2 * b2 + a3 * b3 + a4 * b4)) = θ
      have hsin : Real.sin θ ≠ 0 := by
        rw [← hθ]
        exact sin_arccos_ne_zero h0 hlt
      have hkey : -(Real.sin (1 * θ)) * (1.0 / Real.sin θ) = -1 := by
        rw [show (1.0 : ℝ) = 1 by norm_num, one_mul, neg_mul, mul_one_div, div_self hsin]
      rw [hkey]
      have hzero : Real.sin ((1.0 - 1) * θ) = 0 := by
        rw [show ((1.0 : ℝ) - 1) = 0 by norm_num, zero_mul, Real.sin_zero]
      rw [hzero]
      simp only [Quaternion.mk.injEq]
      norm_num

/-- C3 witness: at the pair (identity, identity) the dot product is 1, so
slerp returns the left endpoint at amount 0 and the right endpoint at
amount 1. -/
theorem C3_slerp_endpoints_amended_witness :
    Quaternion.slerp (Quaternion.create 0 0 0 1) (Quaternion.create 0 0 0 1) 0
        = Quaternion.create 0 0 0 1
    ∧ 0 ≤ Quaternion.dot (Quaternion.create 0 0 0 1) (Quaternion.create 0 0 0 1)
    ∧ Quaternion.slerp (Quaternion.create 0 0 0 1) (Quaternion.create 0 0 0 1) 1
        = Quaternion.create 0 0 0 1 := by
  have hdot : 0 ≤ Quaternion.dot (Quaternion.create 0 0 0 1) (Quaternion.create 0 0 0 1) := by
    norm_num [Quaternion.dot, Quaternion.create]
  exact ⟨(C3_slerp_endpoints_amended (Quaternion.create 0 0 0 1) (Quaternion.create 0 0 0 1)).1,
    hdot,
    (C3_slerp_endpoints_amended (Quaternion.create 0 0 0 1) (Quaternion.create 0 0 0 1)).2.1 hdot⟩

end

end EcsMath
